import Mathlib

/-!
Verification of the travel-planner repository's booking pipeline.

This file shallowly embeds the frontend booking UI
(`frontend/components/BookingStatus.tsx`, `frontend/app/trips/[id]/page.tsx`,
`frontend/app/api/profile/route.ts`,
`frontend/app/api/trips/[id]/bookings/route.ts`) and models the backend
services that the repository documents but does not ship in this tree
(trip status transitions, itinerary builder, approval endpoint, booking
orchestrator, virtual cards, status/log store).  Definitions come first,
theorems follow.
-/

/-- Booking statuses the UI treats as terminal: the `TERMINAL` set of
`BookingStatus.tsx`. -/
def TERMINAL : List String := ["confirmed", "failed", "unsupported"]

/-- One `agent_logs` row as the frontend receives it (the `AgentLog`
interface of `BookingStatus.tsx`). -/
structure AgentLog where
  step : String
  action : String
  result : String
  error_message : Option String
deriving Repr, DecidableEq

/-- One booking record as the frontend receives it (the `Booking`
interface of `BookingStatus.tsx`). -/
structure Booking where
  id : String
  type : String
  status : String
  confirmation_number : Option String
  logs : List AgentLog
deriving Repr, DecidableEq

/-- `isAllDone` from `BookingStatus.tsx`: the bookings list is non-empty
and every booking's status is terminal. -/
def isAllDone (bookings : List Booking) : Bool :=
  decide (bookings.length > 0) && bookings.all (fun b => TERMINAL.contains b.status)

/-- The poll interval of `BookingStatus.tsx` (`setInterval(..., 3_000)`),
in milliseconds. -/
def POLL_INTERVAL_MS : Nat := 3000

/-- Trip statuses that make `BookingStatus.tsx` start polling immediately
on mount (`started` initial value). -/
def START_POLLING_STATUSES : List String := ["booking", "confirmed", "booking_failed"]

/-- The polling loop of `BookingStatus.tsx`, run over the successive fetch
results: an immediate fetch, then one fetch per interval tick; the interval
is cleared as soon as a fetched bookings list satisfies `isAllDone`.
`pollRunFrom i` computes the (timestamp, result) pairs processed starting
from tick `i`. -/
def pollRunFrom (i : Nat) : List (List Booking) → List (Nat × List Booking)
  | [] => []
  | r :: rs =>
    (POLL_INTERVAL_MS * i, r) :: (if isAllDone r then [] else pollRunFrom (i + 1) rs)

/-- The full polling run: immediate fetch at time 0, then every 3000 ms. -/
def pollRun (results : List (List Booking)) : List (Nat × List Booking) :=
  pollRunFrom 0 results

/-- Number of fetches the loop performs before the interval is cleared (or
before the supplied stream of results runs out). -/
def fetchCount : List (List Booking) → Nat
  | [] => 0
  | r :: rs => if isAllDone r then 1 else 1 + fetchCount rs

/-- `allConfirmed` of the `BookingStatus.tsx` render: everything terminal
and every booking confirmed. -/
def allConfirmedB (bookings : List Booking) : Bool :=
  isAllDone bookings && bookings.all (fun b => b.status == "confirmed")

/-- `anyFailed` of the `BookingStatus.tsx` render. -/
def anyFailedB (bookings : List Booking) : Bool :=
  bookings.any (fun b => b.status == "failed" || b.status == "unsupported")

/-- The header headline chosen by `BookingStatus.tsx` once booking has
started. -/
def headerTitle (bookings : List Booking) : String :=
  if allConfirmedB bookings then "Booking confirmed"
  else if anyFailedB bookings && isAllDone bookings then "Booking partially failed"
  else "Booking in progress…"

/-- Trip statuses for which the trip page shows the booking panel:
`BOOKING_STATUSES` of `frontend/app/trips/[id]/page.tsx`. -/
def BOOKING_STATUSES : List String := ["approved", "booking", "confirmed", "booking_failed"]

/-- `showBookingPanel` of `TripPage`: the `BookingStatus` panel, and with it
the Book action, is rendered iff the trip status is in `BOOKING_STATUSES`. -/
def showBookingPanel (status : String) : Bool := BOOKING_STATUSES.contains status

/-- Modelled from the spec: the backend trip state machine
(`backend/app/routers/trips.py`, `backend/app/tasks/booking_tasks.py`) is
not under `src/`; the transitions are taken from the documented status flow
`parsing -> searching -> options_ready | search_failed`,
`options_ready -> approved -> booking -> confirmed | booking_failed`. -/
def TRIP_EDGES : List (String × String) :=
  [("parsing", "searching"),
   ("searching", "options_ready"), ("searching", "search_failed"),
   ("options_ready", "approved"),
   ("approved", "booking"),
   ("booking", "confirmed"), ("booking", "booking_failed")]

/-- One backend transition of a trip's status field. -/
def tripStep (a b : String) : Bool := TRIP_EDGES.contains (a, b)

/-- A list of statuses a trip record can traverse in order. -/
def validTrace : List String → Bool
  | [] => true
  | [_] => true
  | a :: b :: rest => tripStep a b && validTrace (b :: rest)

/-- Pipeline stage of each trip status: parse, search/aggregate, search
outcome, user approval, booking orchestration, booking outcome. -/
def stage (s : String) : Nat :=
  if s = "parsing" then 0
  else if s = "searching" then 1
  else if s = "options_ready" then 2
  else if s = "search_failed" then 2
  else if s = "approved" then 3
  else if s = "booking" then 4
  else 5

/-- Trip statuses a record can hold before an approval has ever happened. -/
def PRE_APPROVAL : List String := ["parsing", "searching", "options_ready", "search_failed"]

/-- Environment-determined outcome of driving one sub-booking to the end of
its step loop. -/
inductive Outcome
  | success (confirmation : String)
  | failure
  | unsupported
deriving Repr, DecidableEq

/-- Terminal booking status produced by each outcome. -/
def outcomeStatus : Outcome → String
  | .success _ => "confirmed"
  | .failure => "failed"
  | .unsupported => "unsupported"

/-- One sub-booking request handed to the orchestrator: the booking row id,
its kind (flight or hotel), the amount its virtual card is capped at, and
the outcome the environment will produce for it. -/
structure BookingReq where
  id : String
  type : String
  amount_usd : Nat
  outcome : Outcome
deriving Repr, DecidableEq

/-- External systems a booking step can touch. -/
inductive ExternalContact
  | bookingSite
  | paymentRails
deriving Repr, DecidableEq

/-- One executed step of the booking agent: the log row it records and the
external systems it contacted. -/
structure AgentStep where
  log : AgentLog
  contacts : List ExternalContact
deriving Repr, DecidableEq

/-- The steps every booking goes through, as the repository documents the
simulator: navigate, fill passenger info, select seat, payment, confirm. -/
def BOOKING_STEPS : List (String × String) :=
  [("navigate", "Opened the booking site"),
   ("fill_passenger_info", "Filled passenger details from the saved profile"),
   ("select_seat", "Selected a seat matching the saved preference"),
   ("payment", "Paid with the single-use virtual card"),
   ("confirm", "Read the confirmation number off the page")]

/-- Modelled from the spec: `backend/app/services/booking_agent.py` is not
under `src/`.  The step loop either simulates every step (mock mode: full
log trail, no browser, no real site, no payment rails, a confirmed happy
path) or runs against the live site, paying at the payment step, with the
final status decided by the environment outcome.  Returns the executed
steps, the final status and the confirmation number. -/
def bookingLoop (mockMode : Bool) (r : BookingReq) : List AgentStep × String × Option String :=
  if mockMode then
    (BOOKING_STEPS.map (fun sa => { log := ⟨sa.1, sa.2, "success", none⟩, contacts := [] }),
     "confirmed", some ("MOCK-" ++ r.id))
  else
    (BOOKING_STEPS.map (fun sa =>
      { log := ⟨sa.1, sa.2, "success", none⟩,
        contacts := .bookingSite :: (if sa.1 = "payment" then [.paymentRails] else []) }),
     outcomeStatus r.outcome,
     match r.outcome with
     | .success c => some c
     | _ => none)

/-- The booking row produced by running the agent for one request. -/
def runBooking (mockMode : Bool) (r : BookingReq) : Booking :=
  { id := r.id, type := r.type,
    status := (bookingLoop mockMode r).2.1,
    confirmation_number := (bookingLoop mockMode r).2.2,
    logs := (bookingLoop mockMode r).1.map AgentStep.log }

/-- A single-use amount-capped virtual payment card, tied to one booking. -/
structure VirtualCard where
  booking_id : String
  cap_usd : Nat
  cancelled : Bool
deriving Repr, DecidableEq

/-- Modelled from the spec: `backend/app/services/virtual_card.py` is not
under `src/`.  One single-use card is issued per booking, capped at that
booking's amount. -/
def issueCard (r : BookingReq) : VirtualCard :=
  { booking_id := r.id, cap_usd := r.amount_usd, cancelled := false }

/-- Modelled from the spec: the orchestrator issues the card, drives the
booking to a terminal status, and cancels the card when the booking
failed. -/
def settleBooking (mockMode : Bool) (r : BookingReq) : Booking × VirtualCard :=
  let card := issueCard r
  let b := runBooking mockMode r
  (b, if b.status = "failed" then { card with cancelled := true } else card)

/-- Modelled from the spec: `execute_trip_bookings` runs the agent for each
sub-booking of the trip in turn; one sub-booking's result never feeds into
another's. -/
def runTrip (mockMode : Bool) (reqs : List BookingReq) : List (Booking × VirtualCard) :=
  reqs.map (settleBooking mockMode)

/-- A flight offer, restricted to the fields the itinerary model needs
(the frontend `Flight` interface carries further presentation fields). -/
structure FlightOffer where
  id : String
  price_usd : Nat
deriving Repr, DecidableEq

/-- A hotel offer, restricted likewise. -/
structure HotelOffer where
  hotel_id : String
  price_total_usd : Nat
deriving Repr, DecidableEq

/-- A packaged itinerary option (the frontend `ItineraryOption` interface):
a labelled flight+hotel combination with a total price. -/
structure ItinOption where
  label : String
  description : String
  flight : FlightOffer
  hotel : HotelOffer
  total_usd : Nat
  within_budget : Bool
deriving Repr, DecidableEq

/-- Package one flight and one hotel into a labelled option. -/
def mkOption (label descr : String) (budget : Nat) (f : FlightOffer) (h : HotelOffer) :
    ItinOption :=
  { label := label, description := descr, flight := f, hotel := h,
    total_usd := f.price_usd + h.price_total_usd,
    within_budget := decide (f.price_usd + h.price_total_usd ≤ budget) }

/-- The flight+hotel pairing an option packages. -/
def optionKey (o : ItinOption) : String × String := (o.flight.id, o.hotel.hotel_id)

/-- Collapse candidate options packaging the same flight+hotel pairing,
keeping the first; `seen` accumulates the pairings already kept. -/
def dedupeGo (seen : List (String × String)) : List ItinOption → List ItinOption
  | [] => []
  | o :: os =>
    if seen.contains (optionKey o) then dedupeGo seen os
    else o :: dedupeGo (optionKey o :: seen) os

/-- Collapse duplicate flight+hotel pairings over a whole candidate list. -/
def dedupeOptions (l : List ItinOption) : List ItinOption := dedupeGo [] l

/-- Modelled from the spec: `backend/app/services/itinerary.py` is not under
`src/`.  The setup guide describes the builder as packaging search results
into "up to 3 options (Budget / Best Value / Premium)" and the README as
presenting "2–3 curated itinerary packages": the three tiers are drawn from
the price-sorted offer lists (cheapest, middle, most expensive) and
candidates collapsing to the same flight+hotel pairing are deduplicated, so
thin search results yield fewer than three options.  `tierOption` builds the
candidate of one tier, empty when either offer list has run dry. -/
def tierOption (label descr : String) (budget : Nat)
    (f? : Option FlightOffer) (h? : Option HotelOffer) : List ItinOption :=
  match f?, h? with
  | some f, some h => [mkOption label descr budget f h]
  | _, _ => []

/-- The itinerary builder: one candidate per tier — cheapest, middle,
most expensive offer — deduplicated (see the model note on `tierOption`). -/
def buildItinerary (budget : Nat) (flights : List FlightOffer) (hotels : List HotelOffer) :
    List ItinOption :=
  dedupeOptions
    (tierOption "Budget" "Lowest-cost flight and hotel" budget
        flights.head? hotels.head?
      ++ tierOption "Best Value" "Balanced price and comfort" budget
        (flights.get? (flights.length / 2)) (hotels.get? (hotels.length / 2))
      ++ tierOption "Premium" "Top-end flight and hotel" budget
        flights.getLast? hotels.getLast?)

/-- A trip record as the frontend `Trip` interface reads it (itinerary
options normalised to a list, as `page.tsx` does with `?? []`). -/
structure Trip where
  id : String
  status : String
  raw_request : String
  itinerary_options : List ItinOption
  approved_itinerary : Option ItinOption
deriving Repr, DecidableEq

/-- Modelled from the spec: `POST /trips/{id}/approve`
(`backend/app/routers/trips.py`) is not under `src/`; per the spec it
"persists the user's chosen option on the trip record", storing it as
`approved_itinerary` and marking the trip approved. -/
def approveTrip (t : Trip) (i : Nat) : Except String Trip :=
  match t.itinerary_options.get? i with
  | some o => .ok { t with approved_itinerary := some o, status := "approved" }
  | none => .error "Invalid option index"

/-- One row of the `agent_logs` table as the status/log store keeps it. -/
structure LogRow where
  booking_id : String
  entry : AgentLog
deriving Repr, DecidableEq

/-- Operations the system performs on the status/log store. -/
inductive StoreOp
  | appendLog (booking_id : String) (e : AgentLog)
  | setStatus (booking_id : String) (s : String)
deriving Repr, DecidableEq

/-- Modelled from the spec: the status/log store (the `agent_logs` table
plus the per-booking status column of `backend/app/models.py`) is not under
`src/`; per the spec it is "append-only per-step log entries plus a current
status field per booking". -/
structure StatusStore where
  log_rows : List LogRow
  statuses : List (String × String)
deriving Repr, DecidableEq

/-- Apply one store operation: appending a log row adds it at the end of the
table; setting a status rewrites only the status column. -/
def applyOp (st : StatusStore) : StoreOp → StatusStore
  | .appendLog b e => { st with log_rows := st.log_rows ++ [⟨b, e⟩] }
  | .setStatus b s =>
    { st with statuses := (b, s) :: st.statuses.filter (fun p => p.1 != b) }

/-- Apply a whole sequence of store operations. -/
def applyOps (st : StatusStore) (ops : List StoreOp) : StatusStore :=
  ops.foldl applyOp st

/-- The per-booking log sequence the UI reads back. -/
def logsFor (st : StatusStore) (b : String) : List AgentLog :=
  (st.log_rows.filter (fun row => row.booking_id == b)).map LogRow.entry

/-- Response returned by the FastAPI backend. -/
structure BackendResp where
  status : Nat
  body : String
deriving Repr, DecidableEq

/-- Body of a Next.js bridge-route response: either the JSON detail object
the route builds itself, or a backend body passed through. -/
inductive RespBody
  | detail (msg : String)
  | passthrough (raw : String)
deriving Repr, DecidableEq

/-- Response produced by a Next.js bridge route. -/
structure ApiResponse where
  status : Nat
  body : RespBody
deriving Repr, DecidableEq

/-- A request as forwarded by a bridge route to the backend. -/
structure Forwarded where
  method : String
  path : String
  headers : List (String × String)
  body : Option String
deriving Repr, DecidableEq

/-- `GET /api/profile` (`frontend/app/api/profile/route.ts`): 401 without
touching the backend when the session has no user email, otherwise a
pass-through carrying the internal headers.  The second component records
the request sent to the backend, if any. -/
def profileGET (apiKey : String) (session : Option String)
    (backend : Forwarded → BackendResp) : ApiResponse × Option Forwarded :=
  match session with
  | none => ({ status := 401, body := .detail "Unauthorized" }, none)
  | some email =>
    let fwd : Forwarded :=
      { method := "GET", path := "/profile",
        headers := [("x-user-email", email), ("x-api-key", apiKey)], body := none }
    ({ status := (backend fwd).status, body := .passthrough (backend fwd).body }, some fwd)

/-- `POST /api/profile` (`frontend/app/api/profile/route.ts`). -/
def profilePOST (apiKey : String) (session : Option String) (reqBody : String)
    (backend : Forwarded → BackendResp) : ApiResponse × Option Forwarded :=
  match session with
  | none => ({ status := 401, body := .detail "Unauthorized" }, none)
  | some email =>
    let fwd : Forwarded :=
      { method := "POST", path := "/profile",
        headers := [("Content-Type", "application/json"),
                    ("x-user-email", email), ("x-api-key", apiKey)],
        body := some reqBody }
    ({ status := (backend fwd).status, body := .passthrough (backend fwd).body }, some fwd)

/-- `GET /api/trips/[id]/bookings`
(`frontend/app/api/trips/[id]/bookings/route.ts`). -/
def bookingsGET (apiKey : String) (session : Option String) (tripId : String)
    (backend : Forwarded → BackendResp) : ApiResponse × Option Forwarded :=
  match session with
  | none => ({ status := 401, body := .detail "Unauthorized" }, none)
  | some email =>
    let fwd : Forwarded :=
      { method := "GET", path := "/trips/" ++ tripId ++ "/bookings",
        headers := [("x-user-email", email), ("x-api-key", apiKey)], body := none }
    ({ status := (backend fwd).status, body := .passthrough (backend fwd).body }, some fwd)

/-- C9: `isAllDone` is true iff the bookings list is non-empty and every
booking's status is one of confirmed, failed, unsupported; in particular it
is false on the empty list, and a poll stream of empty results is consumed
to the end without the interval ever being cleared. -/
theorem isAllDone_iff_nonempty_all_terminal :
    (∀ bookings : List Booking,
      (isAllDone bookings = true ↔ bookings ≠ [] ∧ ∀ b ∈ bookings, b.status ∈ TERMINAL))
    ∧ isAllDone [] = false
    ∧ ∀ k : Nat, fetchCount (List.replicate k []) = k := by
  refine ⟨fun bookings => ?_, by simp [isAllDone], fun k => ?_⟩
  · simp [isAllDone, List.all_eq_true, List.length_pos, List.elem_iff]
  · induction k with
    | zero => rfl
    | succ k ih => simp [List.replicate_succ, fetchCount, isAllDone, ih, Nat.add_comm]

/-- Concrete instance of the C9 characterisation: a single confirmed booking
counts as all-done. -/
theorem isAllDone_iff_nonempty_all_terminal_witness :
    isAllDone [⟨"b1", "flight", "confirmed", none, []⟩] = true :=
  (isAllDone_iff_nonempty_all_terminal.1 _).2 ⟨by decide, by decide⟩

theorem pollRunFrom_length (rs : List (List Booking)) :
    ∀ i, (pollRunFrom i rs).length = fetchCount rs := by
  induction rs with
  | nil => intro i; rfl
  | cons r rs ih =>
    intro i
    by_cases h : isAllDone r = true
    · simp [pollRunFrom, fetchCount, h]
    · simp [pollRunFrom, fetchCount, h, ih (i + 1), Nat.add_comm]

theorem pollRunFrom_nonempty (rs : List (List Booking)) (hne : rs ≠ []) (i : Nat) :
    0 < (pollRunFrom i rs).length := by
  cases rs with
  | nil => exact absurd rfl hne
  | cons r rs =>
    by_cases h : isAllDone r = true <;> simp [pollRunFrom, h]

theorem pollRunFrom_timestamp (rs : List (List Booking)) :
    ∀ i j p, (pollRunFrom i rs).get? j = some p → p.1 = POLL_INTERVAL_MS * (i + j) := by
  induction rs with
  | nil => intro i j p hp; simp [pollRunFrom] at hp
  | cons r rs ih =>
    intro i j p hp
    by_cases h : isAllDone r = true
    · cases j with
      | zero =>
        simp [pollRunFrom, h] at hp
        subst hp
        simp
      | succ j => simp [pollRunFrom, h] at hp
    · cases j with
      | zero =>
        simp [pollRunFrom, h] at hp
        subst hp
        simp
      | succ j =>
        simp only [pollRunFrom, h, Bool.false_eq_true, if_neg, not_false_iff,
          List.get?_cons_succ] at hp
        have := ih (i + 1) j p hp
        rw [this]
        congr 1
        omega

theorem pollRunFrom_stop (rs : List (List Booking)) :
    ∀ i j p, (pollRunFrom i rs).get? j = some p → isAllDone p.2 = true →
      j + 1 = (pollRunFrom i rs).length := by
  induction rs with
  | nil => intro i j p hp; simp [pollRunFrom] at hp
  | cons r rs ih =>
    intro i j p hp hdone
    by_cases h : isAllDone r = true
    · cases j with
      | zero => simp [pollRunFrom, h]
      | succ j => simp [pollRunFrom, h] at hp
    · cases j with
      | zero =>
        simp [pollRunFrom, h] at hp
        rw [← hp] at hdone
        simp [hdone] at h
      | succ j =>
        simp only [pollRunFrom, h, Bool.false_eq_true, if_neg, not_false_iff,
          List.get?_cons_succ] at hp
        have := ih (i + 1) j p hp hdone
        simp [pollRunFrom, h, List.length_cons]
        omega

theorem pollRunFrom_continue (rs : List (List Booking)) :
    ∀ i j p, (pollRunFrom i rs).get? j = some p → isAllDone p.2 = false →
      j + 1 < rs.length → ((pollRunFrom i rs).get? (j + 1)).isSome = true := by
  induction rs with
  | nil => intro i j p hp; simp [pollRunFrom] at hp
  | cons r rs ih =>
    intro i j p hp hnd hlt
    by_cases h : isAllDone r = true
    · cases j with
      | zero =>
        simp [pollRunFrom, h] at hp
        subst hp
        rw [h] at hnd
        exact absurd hnd (by simp)
      | succ j => simp [pollRunFrom, h] at hp
    · cases j with
      | zero =>
        have hne : rs ≠ [] := by
          intro hcontra
          rw [hcontra] at hlt
          simp at hlt
        have hlen := pollRunFrom_nonempty rs hne (i + 1)
        simp only [pollRunFrom, h, Bool.false_eq_true, if_neg, not_false_iff,
          List.get?_cons_succ]
        rw [List.get?_eq_get hlen]
        simp
      | succ j =>
        simp only [pollRunFrom, h, Bool.false_eq_true, if_neg, not_false_iff,
          List.get?_cons_succ] at hp ⊢
        exact ih (i + 1) j p hp hnd (by simpa using Nat.lt_of_succ_lt_succ hlt)

/-- C2: once booking has started the status panel fetches immediately and
then on a fixed 3000 ms interval — the j-th processed fetch happens at time
3000·j — and the interval is cleared exactly when a fetched bookings list is
non-empty with every booking terminal (`isAllDone`): such a fetch is the
last one processed, while after a fetch that is not all-done polling
continues whenever further results arrive. -/
theorem polling_every_three_seconds_until_terminal :
    ∀ results : List (List Booking),
      POLL_INTERVAL_MS = 3000
      ∧ (pollRun results).length = fetchCount results
      ∧ (∀ j p, (pollRun results).get? j = some p → p.1 = POLL_INTERVAL_MS * j)
      ∧ (∀ j p, (pollRun results).get? j = some p → isAllDone p.2 = true →
          j + 1 = (pollRun results).length)
      ∧ (∀ j p, (pollRun results).get? j = some p → isAllDone p.2 = false →
          j + 1 < results.length → ((pollRun results).get? (j + 1)).isSome = true) := by
  intro results
  refine ⟨rfl, pollRunFrom_length results 0, fun j p hp => ?_,
    fun j p hp hdone => pollRunFrom_stop results 0 j p hp hdone,
    fun j p hp hnd hlt => pollRunFrom_continue results 0 j p hp hnd hlt⟩
  have := pollRunFrom_timestamp results 0 j p hp
  simpa using this

/-- Concrete instance of C2: with a pending fetch followed by a confirmed
fetch, the confirmed fetch is the last one processed. -/
theorem polling_every_three_seconds_until_terminal_witness :
    1 + 1 = (pollRun [[⟨"b1", "flight", "in_progress", none, []⟩],
                      [⟨"b1", "flight", "confirmed", some "UA123", []⟩]]).length :=
  (polling_every_three_seconds_until_terminal _).2.2.2.1 1
    (POLL_INTERVAL_MS * 1, [⟨"b1", "flight", "confirmed", some "UA123", []⟩])
    (by decide) (by decide)

theorem settleBooking_fst (mockMode : Bool) (r : BookingReq) :
    (settleBooking mockMode r).1 = runBooking mockMode r := by
  unfold settleBooking
  by_cases h : (runBooking mockMode r).status = "failed" <;> simp [h]

theorem runBooking_status_terminal (mockMode : Bool) (r : BookingReq) :
    (runBooking mockMode r).status ∈ TERMINAL := by
  obtain ⟨i, ty, amt, oc⟩ := r
  cases mockMode <;> cases oc <;>
    simp [runBooking, bookingLoop, outcomeStatus, TERMINAL]

/-- C3: the flight and hotel sub-bookings are settled independently — the
j-th result of a trip run is a function of the j-th request alone, so one
sub-booking's failure cannot keep another from its own terminal status, and
every sub-booking does reach a terminal status; and whenever all bookings
are terminal with at least one failed or unsupported but not all (some
booking is confirmed), the status panel reports "Booking partially failed"
rather than confirmed or plain in-progress. -/
theorem sub_bookings_independent_partial_failure_reported :
    (∀ (mockMode : Bool) (reqs : List BookingReq) (j : Nat),
        ((runTrip mockMode reqs).map Prod.fst).get? j = (reqs.get? j).map (runBooking mockMode))
    ∧ (∀ (mockMode : Bool) (r : BookingReq), (runBooking mockMode r).status ∈ TERMINAL)
    ∧ (∀ bookings : List Booking,
        isAllDone bookings = true → anyFailedB bookings = true →
        (∃ b ∈ bookings, b.status = "confirmed") →
        headerTitle bookings = "Booking partially failed") := by
  refine ⟨fun mockMode reqs j => ?_, runBooking_status_terminal, fun bookings hall hany _ => ?_⟩
  · simp only [runTrip, List.map_map, List.get?_map]
    congr 2
  · have h1 : allConfirmedB bookings = false := by
      simp only [anyFailedB, List.any_eq_true, Bool.or_eq_true, beq_iff_eq] at hany
      rcases hany with ⟨b, hmem, hb⟩
      simp only [allConfirmedB, Bool.and_eq_false_iff, List.all_eq_false]
      refine Or.inr ⟨b, hmem, ?_⟩
      rcases hb with hb | hb <;> simp [hb]
    simp [headerTitle, h1, hany, hall]

/-- Concrete instance of C3: one confirmed flight plus one failed hotel is
reported as a partial failure. -/
theorem sub_bookings_independent_partial_failure_reported_witness :
    headerTitle [⟨"f1", "flight", "confirmed", some "UA1", []⟩,
                 ⟨"h1", "hotel", "failed", none, []⟩] = "Booking partially failed" :=
  sub_bookings_independent_partial_failure_reported.2.2 _ (by decide) (by decide)
    ⟨⟨"f1", "flight", "confirmed", some "UA1", []⟩, by simp, rfl⟩

theorem settleBooking_card (mockMode : Bool) (r : BookingReq) :
    (settleBooking mockMode r).2.booking_id = r.id
    ∧ (settleBooking mockMode r).2.cap_usd = r.amount_usd
    ∧ ((settleBooking mockMode r).1.status = "failed" →
        (settleBooking mockMode r).2.cancelled = true)
    ∧ (settleBooking mockMode r).1.id = r.id := by
  by_cases h : (bookingLoop mockMode r).2.1 = "failed" <;>
    simp [settleBooking, issueCard, runBooking, h]

/-- C4: every booking gets exactly one virtual card, capped at that
booking's amount; a failed booking's card is cancelled; and bookings with
distinct ids never share a card. -/
theorem one_virtual_card_per_booking :
    ∀ (mockMode : Bool) (reqs : List BookingReq) (j : Nat) (r : BookingReq),
      reqs.get? j = some r →
      ∃ q, (runTrip mockMode reqs).get? j = some q
        ∧ q.1.id = r.id
        ∧ q.2.booking_id = r.id
        ∧ q.2.cap_usd = r.amount_usd
        ∧ (q.1.status = "failed" → q.2.cancelled = true)
        ∧ ∀ (k : Nat) (r' : BookingReq), reqs.get? k = some r' → r'.id ≠ r.id →
            ∀ q', (runTrip mockMode reqs).get? k = some q' → q'.2 ≠ q.2 := by
  intro mockMode reqs j r hj
  obtain ⟨hbid, hcap, hcancel, hid⟩ := settleBooking_card mockMode r
  refine ⟨settleBooking mockMode r, ?_, hid, hbid, hcap, hcancel, ?_⟩
  · simp only [runTrip, List.get?_map, hj, Option.map_some']
  · intro k r' hk hne q' hq' hcontra
    simp only [runTrip, List.get?_map, hk, Option.map_some'] at hq'
    injection hq' with hq'eq
    obtain ⟨hbid', _, _, _⟩ := settleBooking_card mockMode r'
    apply hne
    rw [← hbid', hq'eq, hcontra, hbid]

/-- Concrete instance of C4: a failed 500-dollar flight booking gets a card
capped at 500 and tied to it. -/
theorem one_virtual_card_per_booking_witness :
    ∃ q, (runTrip false [⟨"b1", "flight", 500, Outcome.failure⟩]).get? 0 = some q
      ∧ q.1.id = ("b1" : String)
      ∧ q.2.booking_id = ("b1" : String)
      ∧ q.2.cap_usd = 500
      ∧ (q.1.status = "failed" → q.2.cancelled = true)
      ∧ ∀ (k : Nat) (r' : BookingReq),
          [(⟨"b1", "flight", 500, Outcome.failure⟩ : BookingReq)].get? k = some r' →
          r'.id ≠ ("b1" : String) →
          ∀ q', (runTrip false [⟨"b1", "flight", 500, Outcome.failure⟩]).get? k = some q' →
            q'.2 ≠ q.2 :=
  one_virtual_card_per_booking false [⟨"b1", "flight", 500, Outcome.failure⟩] 0
    ⟨"b1", "flight", 500, Outcome.failure⟩ rfl

/-- C6: approving a valid option index succeeds and persists exactly that
option as the trip's approved itinerary, leaving the stored options
untouched. -/
theorem approve_persists_chosen_option :
    ∀ (t : Trip) (i : Nat) (o : ItinOption),
      t.itinerary_options.get? i = some o →
      ∃ t', approveTrip t i = Except.ok t'
        ∧ t'.approved_itinerary = some o
        ∧ t'.itinerary_options = t.itinerary_options := by
  intro t i o h
  refine ⟨{ t with approved_itinerary := some o, status := "approved" }, ?_, rfl, rfl⟩
  rw [List.get?_eq_getElem?] at h
  simp [approveTrip, h]

/-- Concrete instance of C6: approving option 0 of a one-option trip stores
that option. -/
theorem approve_persists_chosen_option_witness :
    ∃ t', approveTrip ⟨"t1", "options_ready", "fly me to Tokyo",
            [⟨"Budget", "d", ⟨"F1", 500⟩, ⟨"H1", 800⟩, 1300, true⟩], none⟩ 0 = Except.ok t'
      ∧ t'.approved_itinerary = some ⟨"Budget", "d", ⟨"F1", 500⟩, ⟨"H1", 800⟩, 1300, true⟩
      ∧ t'.itinerary_options = [⟨"Budget", "d", ⟨"F1", 500⟩, ⟨"H1", 800⟩, 1300, true⟩] :=
  approve_persists_chosen_option _ 0 _ rfl

theorem logsFor_applyOp_appendLog (st : StatusStore) (b c : String) (e : AgentLog) :
    logsFor (applyOp st (.appendLog c e)) b =
      logsFor st b ++ if c == b then [e] else [] := by
  by_cases h : c == b <;>
    simp [logsFor, applyOp, List.filter_append, h]

theorem logsFor_applyOp_setStatus (st : StatusStore) (b c s : String) :
    logsFor (applyOp st (.setStatus c s)) b = logsFor st b := rfl

/-- C7: the status/log store is append-only — after any sequence of store
operations the previously recorded log sequence of every booking survives
as an initial segment, and appending a step log extends that booking's
sequence by exactly that entry. -/
theorem agent_log_store_append_only :
    (∀ (st : StatusStore) (ops : List StoreOp) (b : String),
        ∃ t, logsFor (applyOps st ops) b = logsFor st b ++ t)
    ∧ (∀ (st : StatusStore) (b : String) (e : AgentLog),
        logsFor (applyOp st (.appendLog b e)) b = logsFor st b ++ [e]) := by
  constructor
  · intro st ops
    induction ops generalizing st with
    | nil => intro b; exact ⟨[], by simp [applyOps]⟩
    | cons op ops ih =>
      intro b
      have step : ∃ t1, logsFor (applyOp st op) b = logsFor st b ++ t1 := by
        cases op with
        | appendLog c e => exact ⟨_, logsFor_applyOp_appendLog st b c e⟩
        | setStatus c s => exact ⟨[], by simp [logsFor_applyOp_setStatus]⟩
      obtain ⟨t1, ht1⟩ := step
      obtain ⟨t2, ht2⟩ := ih (applyOp st op) b
      refine ⟨t1 ++ t2, ?_⟩
      have : applyOps st (op :: ops) = applyOps (applyOp st op) ops := rfl
      rw [this, ht2, ht1, List.append_assoc]
  · intro st b e
    have := logsFor_applyOp_appendLog st b b e
    simpa using this

/-- C8: with the mock-mode flag set, the booking loop contacts no real
booking site or payment rail in any step, yet drives the booking to a
terminal status and records every simulated step in the log trail. -/
theorem mock_mode_no_external_contact :
    ∀ r : BookingReq,
      (∀ s ∈ (bookingLoop true r).1, s.contacts = [])
      ∧ (bookingLoop true r).2.1 ∈ TERMINAL
      ∧ (bookingLoop true r).1.length = BOOKING_STEPS.length
      ∧ (runBooking true r).logs.length = BOOKING_STEPS.length
      ∧ BOOKING_STEPS.length ≠ 0 := by
  intro r
  refine ⟨?_, ?_, ?_, ?_, by simp [BOOKING_STEPS]⟩
  · intro s hs
    simp only [bookingLoop, if_pos, List.mem_map] at hs
    obtain ⟨sa, -, hsa⟩ := hs
    rw [← hsa]
  · simp [bookingLoop, TERMINAL]
  · simp [bookingLoop]
  · simp [runBooking, bookingLoop]

/-- Concrete instance of C8: the navigate step of a mock run contacts
nothing external. -/
theorem mock_mode_no_external_contact_witness :
    (AgentStep.mk ⟨"navigate", "Opened the booking site", "success", none⟩ []).contacts
      = ([] : List ExternalContact) :=
  (mock_mode_no_external_contact ⟨"b1", "flight", 100, Outcome.failure⟩).1 _ (by decide)

/-- C10: each server-side bridge handler returns 401 with detail
"Unauthorized" and never contacts the backend when the session lacks a user
email; with an email present it forwards one request carrying the
`x-user-email` and `x-api-key` headers (and the request body for POST) and
returns the backend's status and body unchanged. -/
theorem api_bridge_unauthorized_or_forward :
    ∀ (apiKey reqBody tripId : String) (backend : Forwarded → BackendResp),
      profileGET apiKey none backend = (⟨401, .detail "Unauthorized"⟩, none)
      ∧ profilePOST apiKey none reqBody backend = (⟨401, .detail "Unauthorized"⟩, none)
      ∧ bookingsGET apiKey none tripId backend = (⟨401, .detail "Unauthorized"⟩, none)
      ∧ ∀ email : String,
          (∃ fwd, profileGET apiKey (some email) backend
              = (⟨(backend fwd).status, .passthrough (backend fwd).body⟩, some fwd)
            ∧ ("x-user-email", email) ∈ fwd.headers
            ∧ ("x-api-key", apiKey) ∈ fwd.headers)
          ∧ (∃ fwd, profilePOST apiKey (some email) reqBody backend
              = (⟨(backend fwd).status, .passthrough (backend fwd).body⟩, some fwd)
            ∧ ("x-user-email", email) ∈ fwd.headers
            ∧ ("x-api-key", apiKey) ∈ fwd.headers
            ∧ fwd.body = some reqBody)
          ∧ (∃ fwd, bookingsGET apiKey (some email) tripId backend
              = (⟨(backend fwd).status, .passthrough (backend fwd).body⟩, some fwd)
            ∧ ("x-user-email", email) ∈ fwd.headers
            ∧ ("x-api-key", apiKey) ∈ fwd.headers) := by
  intro apiKey reqBody tripId backend
  refine ⟨rfl, rfl, rfl, fun email => ⟨⟨_, rfl, ?_, ?_⟩, ⟨_, rfl, ?_, ?_, rfl⟩, ⟨_, rfl, ?_, ?_⟩⟩⟩
    <;> simp [profileGET, profilePOST, bookingsGET]

/-- C5 counterexample: with a single flight offer and a single hotel offer
the builder produces one packaged option, not three. -/
theorem itinerary_builder_single_offer_one_option :
    (buildItinerary 2000 [⟨"F1", 500⟩] [⟨"H1", 800⟩]).length = 1 := by decide

theorem dedupeGo_sublist : ∀ (l : List ItinOption) (seen : List (String × String)),
    (dedupeGo seen l).length ≤ l.length ∧ ∀ o ∈ dedupeGo seen l, o ∈ l := by
  intro l
  induction l with
  | nil => intro seen; exact ⟨Nat.le_refl 0, by simp [dedupeGo]⟩
  | cons o os ih =>
    intro seen
    by_cases h : seen.contains (optionKey o) = true
    · obtain ⟨hlen, hmem⟩ := ih seen
      refine ⟨?_, fun x hx => ?_⟩
      · simp only [dedupeGo, h, if_true, List.length_cons]
        omega
      · simp only [dedupeGo, h, if_true] at hx
        exact List.mem_cons_of_mem _ (hmem x hx)
    · obtain ⟨hlen, hmem⟩ := ih (optionKey o :: seen)
      have h' : optionKey o ∉ seen := by simpa using h
      have hgo : dedupeGo seen (o :: os) = o :: dedupeGo (optionKey o :: seen) os := by
        simp [dedupeGo, h']
      refine ⟨?_, fun x hx => ?_⟩
      · rw [hgo, List.length_cons, List.length_cons]
        omega
      · rw [hgo] at hx
        rcases List.mem_cons.mp hx with rfl | hx
        · exact List.mem_cons_self _ _
        · exact List.mem_cons_of_mem _ (hmem x hx)

theorem dedupeOptions_sublist (l : List ItinOption) :
    (dedupeOptions l).length ≤ l.length ∧ ∀ o ∈ dedupeOptions l, o ∈ l :=
  dedupeGo_sublist l []

theorem dedupeOptions_cons_one_le (o : ItinOption) (os : List ItinOption) :
    1 ≤ (dedupeOptions (o :: os)).length := by
  simp [dedupeOptions, dedupeGo]

theorem tierOption_length_le (label descr : String) (budget : Nat)
    (f? : Option FlightOffer) (h? : Option HotelOffer) :
    (tierOption label descr budget f? h?).length ≤ 1 := by
  cases f? <;> cases h? <;> simp [tierOption]

theorem tierOption_mem (label descr : String) (budget : Nat)
    (f? : Option FlightOffer) (h? : Option HotelOffer) (o : ItinOption)
    (ho : o ∈ tierOption label descr budget f? h?) :
    o.label = label ∧ o.total_usd = o.flight.price_usd + o.hotel.price_total_usd := by
  cases f? with
  | none => simp [tierOption] at ho
  | some f =>
    cases h? with
    | none => simp [tierOption] at ho
    | some h =>
      simp only [tierOption, List.mem_singleton] at ho
      subst ho
      exact ⟨rfl, rfl⟩

/-- C5 as amended: the builder packages the offers into at most three
options — at least one when both offer lists are non-empty — and every
option carries one of the labels Budget, Best Value, Premium and a total
price equal to the sum of its flight and hotel prices. -/
theorem itinerary_builder_up_to_three_options :
    ∀ (budget : Nat) (flights : List FlightOffer) (hotels : List HotelOffer),
      (buildItinerary budget flights hotels).length ≤ 3
      ∧ (flights ≠ [] → hotels ≠ [] →
          1 ≤ (buildItinerary budget flights hotels).length)
      ∧ ∀ o ∈ buildItinerary budget flights hotels,
          o.label ∈ ["Budget", "Best Value", "Premium"]
          ∧ o.total_usd = o.flight.price_usd + o.hotel.price_total_usd := by
  intro budget flights hotels
  refine ⟨?_, ?_, ?_⟩
  · have h1 := tierOption_length_le "Budget" "Lowest-cost flight and hotel" budget
      flights.head? hotels.head?
    have h2 := tierOption_length_le "Best Value" "Balanced price and comfort" budget
      (flights.get? (flights.length / 2)) (hotels.get? (hotels.length / 2))
    have h3 := tierOption_length_le "Premium" "Top-end flight and hotel" budget
      flights.getLast? hotels.getLast?
    obtain ⟨hlen, -⟩ := dedupeOptions_sublist
      (tierOption "Budget" "Lowest-cost flight and hotel" budget
          flights.head? hotels.head?
        ++ tierOption "Best Value" "Balanced price and comfort" budget
          (flights.get? (flights.length / 2)) (hotels.get? (hotels.length / 2))
        ++ tierOption "Premium" "Top-end flight and hotel" budget
          flights.getLast? hotels.getLast?)
    unfold buildItinerary
    simp only [List.length_append] at hlen ⊢
    omega
  · intro hf hh
    obtain ⟨f, fs, rfl⟩ := List.exists_cons_of_ne_nil hf
    obtain ⟨h, hs, rfl⟩ := List.exists_cons_of_ne_nil hh
    exact dedupeOptions_cons_one_le _ _
  · intro o ho
    obtain ⟨-, hmem⟩ := dedupeOptions_sublist
      (tierOption "Budget" "Lowest-cost flight and hotel" budget
          flights.head? hotels.head?
        ++ tierOption "Best Value" "Balanced price and comfort" budget
          (flights.get? (flights.length / 2)) (hotels.get? (hotels.length / 2))
        ++ tierOption "Premium" "Top-end flight and hotel" budget
          flights.getLast? hotels.getLast?)
    have ho' := hmem o ho
    rcases List.mem_append.mp ho' with h12 | h3
    · rcases List.mem_append.mp h12 with h1 | h2
      · obtain ⟨hl, ht⟩ := tierOption_mem _ _ _ _ _ _ h1
        exact ⟨by rw [hl]; simp, ht⟩
      · obtain ⟨hl, ht⟩ := tierOption_mem _ _ _ _ _ _ h2
        exact ⟨by rw [hl]; simp, ht⟩
    · obtain ⟨hl, ht⟩ := tierOption_mem _ _ _ _ _ _ h3
      exact ⟨by rw [hl]; simp, ht⟩

/-- Concrete instance of the amended C5: two flights and two hotels yield at
least one packaged option. -/
theorem itinerary_builder_up_to_three_options_witness :
    1 ≤ (buildItinerary 3000 [⟨"F1", 500⟩, ⟨"F2", 900⟩]
          [⟨"H1", 800⟩, ⟨"H2", 1500⟩]).length :=
  (itinerary_builder_up_to_three_options 3000 _ _).2.1 (by decide) (by decide)

theorem tripStep_mem (a b : String) (h : tripStep a b = true) : (a, b) ∈ TRIP_EDGES :=
  List.elem_iff.mp h

theorem tripStep_stage (a b : String) (h : tripStep a b = true) :
    stage b = stage a + 1 := by
  have hmem := tripStep_mem a b h
  simp only [TRIP_EDGES, List.mem_cons, List.not_mem_nil, or_false, Prod.mk.injEq] at hmem
  rcases hmem with ⟨rfl, rfl⟩ | ⟨rfl, rfl⟩ | ⟨rfl, rfl⟩ | ⟨rfl, rfl⟩ | ⟨rfl, rfl⟩
    | ⟨rfl, rfl⟩ | ⟨rfl, rfl⟩ <;> decide

theorem tripStep_pre_approval (a b : String) (ha : a ∈ PRE_APPROVAL)
    (h : tripStep a b = true) : b = "approved" ∨ b ∈ PRE_APPROVAL := by
  have hmem := tripStep_mem a b h
  simp only [TRIP_EDGES, List.mem_cons, List.not_mem_nil, or_false, Prod.mk.injEq] at hmem
  rcases hmem with ⟨rfl, rfl⟩ | ⟨rfl, rfl⟩ | ⟨rfl, rfl⟩ | ⟨rfl, rfl⟩ | ⟨rfl, rfl⟩
    | ⟨rfl, rfl⟩ | ⟨rfl, rfl⟩ <;>
    first
      | exact Or.inl rfl
      | exact Or.inr (by decide)
      | exact absurd ha (by decide)

theorem validTrace_pre_approval : ∀ (tr : List String) (a : String),
    a ∈ PRE_APPROVAL → validTrace (a :: tr) = true → "approved" ∉ (a :: tr) →
    ∀ s ∈ (a :: tr), s ∈ PRE_APPROVAL := by
  intro tr
  induction tr with
  | nil =>
    intro a ha _ _ s hs
    rw [List.mem_singleton.mp hs]
    exact ha
  | cons b rest ih =>
    intro a ha hv hnap s hs
    have hstep : tripStep a b = true ∧ validTrace (b :: rest) = true := by
      simpa [validTrace, Bool.and_eq_true] using hv
    have hb : b ∈ PRE_APPROVAL := by
      rcases tripStep_pre_approval a b ha hstep.1 with hb | hb
      · subst hb
        exact absurd (List.mem_cons_of_mem _ (List.mem_cons_self _ _)) hnap
      · exact hb
    rcases List.mem_cons.mp hs with rfl | hs'
    · exact ha
    · exact ih b hb hstep.2 (fun hc => hnap (List.mem_cons_of_mem _ hc)) s hs'

theorem validTrace_take : ∀ (tr : List String) (n : Nat),
    validTrace tr = true → validTrace (tr.take n) = true := by
  intro tr
  induction tr with
  | nil => intro n _; simp [validTrace]
  | cons a rest ih =>
    intro n hv
    cases rest with
    | nil =>
      cases n with
      | zero => rfl
      | succ m => simpa [validTrace] using hv
    | cons b r2 =>
      cases n with
      | zero => rfl
      | succ m =>
        have hv' : tripStep a b = true ∧ validTrace (b :: r2) = true := by
          simpa [validTrace, Bool.and_eq_true] using hv
        cases m with
        | zero => simp [validTrace]
        | succ k =>
          have htail := ih (k + 1) hv'.2
          simp only [List.take_succ_cons] at htail ⊢
          simp [validTrace, hv'.1, Bool.and_eq_true]
          simpa [List.take_succ_cons] using htail

/-- C1: the documented pipeline moves through the stages in order — every
backend status transition advances the stage counter by exactly one — and
the booking panel (with its Book action) is gated on the statuses approved,
booking, confirmed, booking_failed, which a trip run starting at parsing
can only hold after having passed through approved: whenever a status of a
valid trace shows the booking panel, "approved" occurs in the trace up to
that point. -/
theorem booking_panel_only_after_approval :
    (∀ a b : String, tripStep a b = true → stage b = stage a + 1)
    ∧ ∀ (tr : List String) (i : Nat) (s : String),
        validTrace tr = true → tr.head? = some "parsing" →
        tr.get? i = some s → showBookingPanel s = true →
        "approved" ∈ tr.take (i + 1) := by
  refine ⟨tripStep_stage, ?_⟩
  intro tr i s hv hhead hget hpanel
  by_contra hnap
  obtain ⟨rest, rfl⟩ : ∃ rest, tr = "parsing" :: rest := by
    cases tr with
    | nil => simp at hhead
    | cons x rest =>
      simp only [List.head?_cons, Option.some.injEq] at hhead
      exact ⟨rest, by rw [hhead]⟩
  have hvpre : validTrace (("parsing" :: rest).take (i + 1)) = true :=
    validTrace_take _ (i + 1) hv
  rw [List.take_succ_cons] at hvpre hnap
  have hsmem : s ∈ ("parsing" :: rest).take (i + 1) := by
    have : (("parsing" :: rest).take (i + 1)).get? i = some s := by
      rw [List.get?_take (Nat.lt_succ_self i)]
      exact hget
    exact List.get?_mem this
  rw [List.take_succ_cons] at hsmem
  have hspre : s ∈ PRE_APPROVAL :=
    validTrace_pre_approval (rest.take i) "parsing" (by decide) hvpre hnap s hsmem
  simp only [PRE_APPROVAL, List.mem_cons, List.not_mem_nil, or_false] at hspre
  rcases hspre with rfl | rfl | rfl | rfl <;>
    exact absurd hpanel (by decide)

/-- Concrete instance of C1: on the nominal trace the booking status at
index 4 is preceded by the approval. -/
theorem booking_panel_only_after_approval_witness :
    "approved" ∈ (["parsing", "searching", "options_ready", "approved", "booking"].take 5) :=
  booking_panel_only_after_approval.2
    ["parsing", "searching", "options_ready", "approved", "booking"] 4 "booking"
    (by decide) rfl rfl (by decide)
